import Mathlib

/-!
Shallow embedding of the page-acquisition protocol of `src/index.ts`
(digest-mcp). The TypeScript code is asynchronous and effectful; we model
every external interaction (browser connection, page creation, navigation,
script evaluation, key presses, network-idle waiting, page close) as an
oracle value supplied by an environment record, and we model time by
counting the milliseconds of the explicit `sleep` calls (script evaluations
are treated as instantaneous).  Fallible calls are `Except String`/`Option`
values, errors being their message strings.
-/

/-! ### Timing constants, from the TIMEOUTS object in src/index.ts -/

def PAGE_LOAD : Nat := 30000

def PAGE_STABILIZATION : Nat := 1000

def SCROLL_COMPLETION : Nat := 500

def CONTENT_CHECK_INTERVAL : Nat := 500

def ADDITIONAL_CONTENT_WAIT : Nat := 1000

def NETWORK_IDLE : Nat := 5000

def NETWORK_IDLE_TIME : Nat := 500

def FINAL_RENDER_WAIT : Nat := 1000

/-! ### Default values, from the DEFAULTS object in src/index.ts -/

def DEFAULTS_INITIAL_WAIT : Int := 3000

def DEFAULTS_SCROLL_COUNT : Int := 0

def DEFAULTS_SCROLL_WAIT : Int := 3000

/-! ### Detachment detection (isPageDetachmentError, src/index.ts:334-337) -/

/-- Helper for `strIncludes`: does `needle` occur contiguously in the
haystack list? -/
def strIncludesAux (needle : List Char) : List Char → Bool
  | [] => needle.isEmpty
  | c :: tl => needle.isPrefixOf (c :: tl) || strIncludesAux needle tl

/-- Model of JavaScript `string.includes(sub)`: the character sequence of
`sub` occurs contiguously inside the character sequence of `s`. -/
def strIncludes (s sub : String) : Bool :=
  strIncludesAux sub.toList s.toList

/-- The PAGE_DETACHMENT_KEYWORDS constant of src/index.ts. -/
def PAGE_DETACHMENT_KEYWORDS : List String := ["detached", "closed", "Target closed"]

/-- Model of `isPageDetachmentError`: raised errors are modelled by their
message string, and the source checks whether the message includes one of
the detachment keywords. -/
def isPageDetachmentError (msg : String) : Bool :=
  PAGE_DETACHMENT_KEYWORDS.any fun keyword => strIncludes msg keyword

/-! ### The adaptive content-detection wait (waitForNewContent, src/index.ts:253-277)

The source loop runs `while (Date.now() - startTime < scrollWaitTime)`,
performing one height read (`page.evaluate`) per round and then sleeping
`CONTENT_CHECK_INTERVAL = 500` ms.  Reads are instantaneous in the model, so
when the k-th read happens the elapsed time is `500 * k`, and the loop
condition admits exactly the reads with `500 * k < scrollWaitTime`, i.e.
`numPolls scrollWaitTime` of them.

The environment of one detection wait is `reads : Nat → Option Int`,
where `reads k` is the outcome of the k-th height read (`none` models the
evaluate call throwing, e.g. on a detached page). -/

/-- Result of one `waitForNewContent` call: whether new content was
detected, whether the wait was abandoned by a failed height read, how many
height reads were performed, and the total milliseconds slept inside the
call. -/
structure WaitResult where
  contentLoaded : Bool
  readFailed : Bool
  polls : Nat
  elapsed : Nat
deriving Repr, DecidableEq

/-- Number of height reads the timed loop performs for a given
`scrollWaitTime`: the reads happen at elapsed times `0, 500, 1000, …`
strictly below `scrollWaitTime`. -/
def numPolls (scrollWaitTime : Int) : Nat :=
  (scrollWaitTime.toNat + 499) / 500

/-- The polling loop of `waitForNewContent`, with the remaining number of
loop rounds as structural fuel (`waitForNewContent` supplies exactly
`numPolls scrollWaitTime`) and `k` the index of the next height read.
Each exit mirrors one exit of the source loop:
fuel exhausted = the `while` condition failed (no extra sleep after the
last 500 ms interval sleep); `reads k = none` = the catch block's `break`
(before the interval sleep); a strictly greater height = the
`contentLoaded` break after sleeping `ADDITIONAL_CONTENT_WAIT`. -/
def waitPolls (reads : Nat → Option Int) (previousHeight : Int) :
    Nat → Nat → WaitResult
  | 0, k => ⟨false, false, k, 500 * k⟩
  | n + 1, k =>
    match reads k with
    | none => ⟨false, true, k + 1, 500 * k⟩
    | some currentHeight =>
      if previousHeight < currentHeight then
        ⟨true, false, k + 1, 500 * k + ADDITIONAL_CONTENT_WAIT⟩
      else
        waitPolls reads previousHeight n (k + 1)

/-- Model of `waitForNewContent` (src/index.ts:253-277).  The guard
`if (scrollWaitTime <= 0) return;` comes first; otherwise the timed polling
loop runs. -/
def waitForNewContent (reads : Nat → Option Int) (previousHeight : Int)
    (scrollWaitTime : Int) : WaitResult :=
  if scrollWaitTime ≤ 0 then ⟨false, false, 0, 0⟩
  else waitPolls reads previousHeight (numPolls scrollWaitTime) 0

/-! ### Scroll-height read (getScrollHeight, src/index.ts:230-237) -/

/-- Model of `getScrollHeight`: the evaluate call either yields a height or
throws; a throw is caught and 0 is returned.  The function itself never
throws. -/
def getScrollHeight (read : Option Int) : Int :=
  match read with
  | some h => h
  | none => 0

/-! ### Scroll command (scrollToBottom, src/index.ts:239-251) -/

/-- Model of `scrollToBottom`: the smooth-scroll evaluate is tried first;
if it throws, the `End` key press is the fallback, whose own failure
propagates to the caller. -/
def scrollToBottom (evalScroll keyPress : Except String Unit) :
    Except String Unit :=
  match evalScroll with
  | Except.ok _ => Except.ok ()
  | Except.error _ => keyPress

/-! ### One scroll iteration and the scroll loop (performScrolling, src/index.ts:206-228) -/

/-- Environment of one scroll-loop iteration: the `page.isClosed()` answer
at the top of the iteration, the outcome of the pre-scroll height read, the
outcomes of the two scroll commands, and the height-read oracle of the
iteration's detection wait. -/
structure ScrollIterEnv where
  pageClosed : Bool
  preHeightRead : Option Int
  evalScroll : Except String Unit
  keyPress : Except String Unit
  detectReads : Nat → Option Int

/-- Log of one executed scroll iteration: its index, the `previousHeight`
value used, the detection-wait result (`none` when the iteration threw
before reaching the wait), and the error raised inside the iteration's try
block, if any. -/
structure ScrollIterLog where
  index : Nat
  previousHeight : Int
  wait : Option WaitResult
  error : Option String
deriving Repr, DecidableEq

/-- Body of one scroll-loop iteration (the try block of
src/index.ts:215-219): read `previousHeight` via `getScrollHeight` (never
throws), scroll to the bottom (the only step that can throw: the keyboard
fallback), sleep `SCROLL_COMPLETION`, then run the detection wait (never
throws). -/
def runScrollIter (i : Nat) (env : ScrollIterEnv) (scrollWaitTime : Int) :
    ScrollIterLog :=
  let previousHeight := getScrollHeight env.preHeightRead
  match scrollToBottom env.evalScroll env.keyPress with
  | Except.error e => ⟨i, previousHeight, none, some e⟩
  | Except.ok _ =>
    ⟨i, previousHeight,
      some (waitForNewContent env.detectReads previousHeight scrollWaitTime),
      none⟩

/-- Outcome of `performScrolling`: the logs of the iterations whose body
ran, and how the loop ended (break on a closed page, break on a detachment
error, or normal exhaustion of `scrollCount`). -/
structure ScrollOutcome where
  iters : List ScrollIterLog
  stoppedByClosed : Bool
  stoppedByDetachment : Bool
deriving Repr, DecidableEq

/-- The scroll loop with the remaining iteration count as fuel and `i` the
current iteration index.  Mirrors src/index.ts:207-227: check
`page.isClosed()` and break; run the iteration body; on an error whose
message matches a detachment keyword break out of the whole loop, on any
other error log it and continue. -/
def performScrollingAux (env : Nat → ScrollIterEnv) (scrollWaitTime : Int) :
    Nat → Nat → ScrollOutcome
  | 0, _ => ⟨[], false, false⟩
  | n + 1, i =>
    if (env i).pageClosed then ⟨[], true, false⟩
    else
      let log := runScrollIter i (env i) scrollWaitTime
      match log.error with
      | some e =>
        if isPageDetachmentError e then ⟨[log], false, true⟩
        else
          let rest := performScrollingAux env scrollWaitTime n (i + 1)
          ⟨log :: rest.iters, rest.stoppedByClosed, rest.stoppedByDetachment⟩
      | none =>
        let rest := performScrollingAux env scrollWaitTime n (i + 1)
        ⟨log :: rest.iters, rest.stoppedByClosed, rest.stoppedByDetachment⟩

/-- Model of `performScrolling` (src/index.ts:206-228): the
`for (let i = 0; i < scrollCount; i++)` loop.  All errors are handled
inside, so the function is total: scroll failures are never fatal to the
fetch. -/
def performScrolling (env : Nat → ScrollIterEnv) (scrollCount : Int)
    (scrollWaitTime : Int) : ScrollOutcome :=
  performScrollingAux env scrollWaitTime scrollCount.toNat 0

/-! ### Stage trace of one fetch request

The observable stages of `fetchWebContent` (src/index.ts:127-156), in the
order they run.  Sleep stages carry the milliseconds slept. -/

/-- One observable stage of a fetch request. -/
inductive Stage where
  | ensureConnection : Stage
  | createPage : Stage
  | navigate : Stage
  | stabilizeSleep : Nat → Stage
  | initialWaitSleep : Int → Stage
  | scrolling : Stage
  | settleSleep : Int → Stage
  | networkIdleWait : Stage
  | finalRenderSleep : Nat → Stage
  | extraction : Stage
deriving Repr, DecidableEq

/-! ### Navigation (navigateToUrl, src/index.ts:184-197) -/

/-- Model of `navigateToUrl`: on a successful `page.goto` the function
sleeps `PAGE_STABILIZATION` before returning; on failure it throws an error
whose message embeds the target URL and the underlying detail.  Returns the
stage events performed together with the outcome. -/
def navigateToUrl (url : String) (goto : Except String Unit) :
    List Stage × Except String Unit :=
  match goto with
  | Except.ok _ =>
    ([Stage.navigate, Stage.stabilizeSleep PAGE_STABILIZATION], Except.ok ())
  | Except.error e =>
    ([Stage.navigate],
      Except.error ("Failed to load URL " ++ url ++ ": " ++ e))

/-! ### Initial wait (waitForInitialLoad, src/index.ts:199-204) -/

/-- Model of `waitForInitialLoad`: sleep `waitTime` ms only when it is
positive. -/
def waitForInitialLoad (waitTime : Int) : List Stage :=
  if 0 < waitTime then [Stage.initialWaitSleep waitTime] else []

/-! ### Post-scroll settle, network idle, final render (waitForNetworkAndRendering, src/index.ts:279-300) -/

/-- Model of `waitForNetworkAndRendering`: an extra `scrollWaitTime` settle
sleep when `scrollCount > 0 && scrollWaitTime > 0`, then the
`waitForNetworkIdle` call whose timeout is caught and absorbed (so the
function is total whatever `netIdle` is), then the unconditional
`FINAL_RENDER_WAIT` sleep. -/
def waitForNetworkAndRendering (scrollCount scrollWaitTime : Int)
    (netIdle : Except String Unit) : List Stage :=
  (if 0 < scrollCount ∧ 0 < scrollWaitTime
    then [Stage.settleSleep scrollWaitTime] else [])
  ++ [Stage.networkIdleWait, Stage.finalRenderSleep FINAL_RENDER_WAIT]

/-! ### Content extraction (extractPageContent, src/index.ts:302-321) -/

/-- Model of `extractPageContent`: fail at once when the page is already
closed; otherwise try the outerHTML evaluate, and on its failure try the
single `page.content()` fallback; when both fail the error message keeps
the primary failure's detail. -/
def extractPageContent (isClosed : Bool) (evalHTML content : Except String String) :
    Except String String :=
  if isClosed then Except.error "Page was closed before content extraction"
  else
    match evalHTML with
    | Except.ok c => Except.ok c
    | Except.error e =>
      match content with
      | Except.ok c => Except.ok c
      | Except.error _ =>
        Except.error ("Failed to extract page content: " ++ e)

/-! ### Page teardown (closePage, src/index.ts:323-332) -/

/-- Model of `closePage`, returning the number of `page.close()` calls
performed: zero on a null page; otherwise exactly one close attempt whose
own failure is caught and absorbed (both branches of the match mirror the
try/catch and yield the same count). -/
def closePage : Option Unit → Except String Unit → Nat
  | none, _ => 0
  | some _, Except.ok _ => 1
  | some _, Except.error _ => 1

/-! ### The fetch protocol (fetchWebContent, src/index.ts:127-156) -/

/-- Environment of one fetch request: the outcomes of every external
interaction the protocol performs. -/
structure FetchEnv where
  connect : Except String Unit
  newPage : Except String Unit
  goto : Except String Unit
  scrollEnv : Nat → ScrollIterEnv
  netIdle : Except String Unit
  closedAtExtraction : Bool
  evalOuterHTML : Except String String
  pageContent : Except String String
  closeResult : Except String Unit

/-- Outcome of one fetch request: the stage trace, how many pages were
opened, how many `page.close()` calls ran, the scroll-loop outcome (when
the protocol reached it) and the final result. -/
structure FetchOutcome where
  trace : List Stage
  pagesOpened : Nat
  closeCalls : Nat
  scroll : Option ScrollOutcome
  result : Except String String

/-- Model of `fetchWebContent` (src/index.ts:127-156).  The stages run in
source order inside a try whose catch closes the page and rethrows; the
success path closes the page after extraction.  `closePage` is a no-op when
stages 1-2 failed before a page existed. -/
def fetchWebContent (url : String) (initialWaitTime scrollCount scrollWaitTime : Int)
    (env : FetchEnv) : FetchOutcome :=
  match env.connect with
  | Except.error e =>
    { trace := [Stage.ensureConnection]
      pagesOpened := 0
      closeCalls := closePage none env.closeResult
      scroll := none
      result := Except.error ("Failed to connect to browserless.io: " ++ e) }
  | Except.ok _ =>
    match env.newPage with
    | Except.error e =>
      { trace := [Stage.ensureConnection, Stage.createPage]
        pagesOpened := 0
        closeCalls := closePage none env.closeResult
        scroll := none
        result := Except.error e }
    | Except.ok _ =>
      match navigateToUrl url env.goto with
      | (navTrace, Except.error e) =>
        { trace := [Stage.ensureConnection, Stage.createPage] ++ navTrace
          pagesOpened := 1
          closeCalls := closePage (some ()) env.closeResult
          scroll := none
          result := Except.error e }
      | (navTrace, Except.ok _) =>
        { trace := [Stage.ensureConnection, Stage.createPage] ++ navTrace
            ++ waitForInitialLoad initialWaitTime
            ++ [Stage.scrolling]
            ++ waitForNetworkAndRendering scrollCount scrollWaitTime env.netIdle
            ++ [Stage.extraction]
          pagesOpened := 1
          closeCalls := closePage (some ()) env.closeResult
          scroll := some (performScrolling env.scrollEnv scrollCount scrollWaitTime)
          result := extractPageContent env.closedAtExtraction env.evalOuterHTML
            env.pageContent }

/-! ### Request handling (handleWebContentRequest, src/index.ts:98-115) -/

/-- The tool arguments (the FetchWebContentArgs interface): `url` is
`none` when the field is missing; the three timing fields default when
absent. -/
structure FetchWebContentArgs where
  url : Option String
  initialWaitTime : Option Int
  scrollCount : Option Int
  scrollWaitTime : Option Int

/-- JavaScript falsiness of the `url` argument as tested by
`if (!args.url)`: a missing field or the empty string. -/
def urlIsFalsy : Option String → Bool
  | none => true
  | some s => s.isEmpty

/-- Outcome of `handleWebContentRequest`: whether the request was rejected
with the invalid-parameters error before the protocol started, plus the
protocol trace (empty when rejected) and the wrapped result. -/
structure HandleOutcome where
  invalidParams : Bool
  trace : List Stage
  result : Except String String

/-- Model of `handleWebContentRequest` (src/index.ts:98-115): a falsy
`url` raises the invalid-parameters error before `fetchWebContent` runs;
otherwise the protocol runs with the defaulted arguments and a protocol
error is wrapped in the internal-error message. -/
def handleWebContentRequest (args : FetchWebContentArgs) (env : FetchEnv) :
    HandleOutcome :=
  if urlIsFalsy args.url then
    { invalidParams := true, trace := [], result := Except.error "URL is required" }
  else
    let o := fetchWebContent (args.url.getD "")
      (args.initialWaitTime.getD DEFAULTS_INITIAL_WAIT)
      (args.scrollCount.getD DEFAULTS_SCROLL_COUNT)
      (args.scrollWaitTime.getD DEFAULTS_SCROLL_WAIT) env
    match o.result with
    | Except.ok c =>
      { invalidParams := false, trace := o.trace, result := Except.ok c }
    | Except.error e =>
      { invalidParams := false, trace := o.trace
        result := Except.error ("Failed to fetch web content: " ++ e) }

/-! ### Lemmas about the polling loop -/

/-- When every read in the window succeeds with a height not above
`previousHeight`, the polling loop consumes all its rounds and reports no
content. -/
theorem waitPolls_no_increase (reads : Nat → Option Int) (prev : Int) :
    ∀ n k, (∀ j, j < n → ∃ h, reads (k + j) = some h ∧ h ≤ prev) →
      waitPolls reads prev n k = ⟨false, false, k + n, 500 * (k + n)⟩ := by
  intro n
  induction n with
  | zero => intro k _; simp [waitPolls]
  | succ m ih =>
    intro k hall
    obtain ⟨h0, hr0, hle0⟩ := hall 0 (Nat.succ_pos m)
    rw [Nat.add_zero] at hr0
    have hnotlt : ¬ prev < h0 := not_lt.mpr hle0
    have hrest : ∀ j, j < m → ∃ h, reads (k + 1 + j) = some h ∧ h ≤ prev := by
      intro j hj
      have := hall (j + 1) (by omega)
      rwa [show k + (j + 1) = k + 1 + j by omega] at this
    have hk : k + 1 + m = k + (m + 1) := by omega
    simp only [waitPolls, hr0, hnotlt, if_false, ih (k + 1) hrest, hk]

/-- When the first strictly greater height appears at read `j` (all earlier
reads succeeding with heights not above `previousHeight`), the polling loop
exits early at read `j` with the extra settle sleep. -/
theorem waitPolls_first_increase (reads : Nat → Option Int) (prev : Int) :
    ∀ j n k h, j < n →
      (∀ i, i < j → ∃ hh, reads (k + i) = some hh ∧ hh ≤ prev) →
      reads (k + j) = some h → prev < h →
      waitPolls reads prev n k =
        ⟨true, false, k + j + 1, 500 * (k + j) + ADDITIONAL_CONTENT_WAIT⟩ := by
  intro j
  induction j with
  | zero =>
    intro n k h hn _ hread hlt
    match n, hn with
    | m + 1, _ =>
      rw [Nat.add_zero] at hread
      simp [waitPolls, hread, hlt]
  | succ jj ih =>
    intro n k h hn hpre hread hlt
    match n, hn with
    | m + 1, hn =>
      obtain ⟨h0, hr0, hle0⟩ := hpre 0 (Nat.succ_pos jj)
      rw [Nat.add_zero] at hr0
      have hnotlt : ¬ prev < h0 := not_lt.mpr hle0
      have hpre' : ∀ i, i < jj → ∃ hh, reads (k + 1 + i) = some hh ∧ hh ≤ prev := by
        intro i hi
        have := hpre (i + 1) (by omega)
        rwa [show k + (i + 1) = k + 1 + i by omega] at this
      have hread' : reads (k + 1 + jj) = some h := by
        rwa [show k + (jj + 1) = k + 1 + jj by omega] at hread
      have := ih m (k + 1) h (by omega) hpre' hread' hlt
      have hk : k + 1 + jj = k + (jj + 1) := by omega
      simp only [waitPolls, hr0, hnotlt, if_false, this, hk]

/-- When the read at index `j` fails (all earlier reads succeeding with
heights not above `previousHeight`), the polling loop is abandoned at read
`j` with no further sleep. -/
theorem waitPolls_read_failure (reads : Nat → Option Int) (prev : Int) :
    ∀ j n k, j < n →
      (∀ i, i < j → ∃ hh, reads (k + i) = some hh ∧ hh ≤ prev) →
      reads (k + j) = none →
      waitPolls reads prev n k = ⟨false, true, k + j + 1, 500 * (k + j)⟩ := by
  intro j
  induction j with
  | zero =>
    intro n k hn _ hread
    match n, hn with
    | m + 1, _ =>
      rw [Nat.add_zero] at hread
      simp [waitPolls, hread]
  | succ jj ih =>
    intro n k hn hpre hread
    match n, hn with
    | m + 1, hn =>
      obtain ⟨h0, hr0, hle0⟩ := hpre 0 (Nat.succ_pos jj)
      rw [Nat.add_zero] at hr0
      have hnotlt : ¬ prev < h0 := not_lt.mpr hle0
      have hpre' : ∀ i, i < jj → ∃ hh, reads (k + 1 + i) = some hh ∧ hh ≤ prev := by
        intro i hi
        have := hpre (i + 1) (by omega)
        rwa [show k + (i + 1) = k + 1 + i by omega] at this
      have hread' : reads (k + 1 + jj) = none := by
        rwa [show k + (jj + 1) = k + 1 + jj by omega] at hread
      have := ih m (k + 1) (by omega) hpre' hread'
      have hk : k + 1 + jj = k + (jj + 1) := by omega
      simp only [waitPolls, hr0, hnotlt, if_false, this, hk]

/-- Arithmetic facts about the poll count: the loop's total interval sleep
reaches `scrollWaitTime` but overshoots it by less than one interval, and a
positive wait admits at least one poll. -/
theorem numPolls_spec (swt : Int) (hswt : 0 < swt) :
    swt ≤ (500 * numPolls swt : Int) ∧ (500 * numPolls swt : Int) < swt + 500
      ∧ 0 < numPolls swt ∧ (∀ k, k < numPolls swt → (500 * k : Int) < swt) := by
  have htn : (swt.toNat : Int) = swt := Int.toNat_of_nonneg (le_of_lt hswt)
  unfold numPolls
  refine ⟨?_, ?_, ?_, ?_⟩
  · omega
  · omega
  · omega
  · intro k hk; omega

/-! ### Claim theorems: the detection wait -/

/-- C1: for a scroll iteration with `scrollWaitTime > 0` and all height
reads succeeding, the detection wait polls at the fixed 500 ms interval and
terminates exactly one of two ways: early at the first poll whose height
strictly exceeds `previousHeight`, with an extra 1000 ms pause before
returning; or, when no poll strictly exceeds `previousHeight` (equality
never triggers the early exit), by consuming the full `scrollWaitTime`
(its interval sleeps reach `scrollWaitTime` and overshoot by less than one
interval) and returning without error. -/
theorem C1_adaptive_detection_wait (reads : Nat → Option Int) (prev swt : Int)
    (hswt : 0 < swt) :
    ((∀ k, k < numPolls swt → ∃ h, reads k = some h ∧ h ≤ prev) →
        waitForNewContent reads prev swt =
          ⟨false, false, numPolls swt, 500 * numPolls swt⟩ ∧
        swt ≤ (500 * numPolls swt : Int) ∧
        (500 * numPolls swt : Int) < swt + 500)
    ∧ (∀ j h, j < numPolls swt →
        (∀ i, i < j → ∃ hh, reads i = some hh ∧ hh ≤ prev) →
        reads j = some h → prev < h →
        waitForNewContent reads prev swt =
          ⟨true, false, j + 1, 500 * j + ADDITIONAL_CONTENT_WAIT⟩) := by
  have hguard : ¬ swt ≤ 0 := not_le.mpr hswt
  constructor
  · intro hall
    refine ⟨?_, (numPolls_spec swt hswt).1, (numPolls_spec swt hswt).2.1⟩
    have := waitPolls_no_increase reads prev (numPolls swt) 0
      (by intro j hj; simpa using hall j hj)
    simpa [waitForNewContent, hguard] using this
  · intro j h hj hpre hread hlt
    have := waitPolls_first_increase reads prev j (numPolls swt) 0 h hj
      (by intro m hm; simpa using hpre m hm) (by simpa using hread) hlt
    simpa [waitForNewContent, hguard] using this

/-- Witness for C1 at concrete inputs: with constant height 5 and
`scrollWaitTime = 3000` the wait performs all 6 polls and sleeps 3000 ms
with no content detected (equal height never exits early); with the height
first strictly exceeding at poll 2 the wait exits early after 3 polls,
sleeping 2 intervals plus the extra 1000 ms settle. -/
theorem C1_adaptive_detection_wait_witness :
    waitForNewContent (fun _ => some 5) 5 3000 = ⟨false, false, 6, 3000⟩
    ∧ waitForNewContent (fun k => if k < 2 then some 5 else some 9) 5 3000 =
        ⟨true, false, 3, 2000⟩ := by
  constructor
  · have := ((C1_adaptive_detection_wait (fun _ => some 5) 5 3000 (by norm_num)).1
      (by intro k _; exact ⟨5, rfl, le_refl 5⟩)).1
    simpa [numPolls] using this
  · have := (C1_adaptive_detection_wait
      (fun k => if k < 2 then some 5 else some 9) 5 3000 (by norm_num)).2 2 9
      (by decide)
      (by intro i hi; exact ⟨5, by simp [hi], le_refl 5⟩)
      (by norm_num) (by norm_num)
    simpa [ADDITIONAL_CONTENT_WAIT] using this

/-- C9: for a scroll iteration with `scrollWaitTime ≤ 0`, the detection
wait returns at once, performing no height poll and no sleep, so no new
content is ever detected and the extra settle never happens, whatever the
height oracle does. -/
theorem C9_nonpositive_wait_returns_immediately (reads : Nat → Option Int)
    (prev swt : Int) (hswt : swt ≤ 0) :
    waitForNewContent reads prev swt = ⟨false, false, 0, 0⟩ := by
  simp [waitForNewContent, hswt]

/-- Witness for C9: with `scrollWaitTime = 0` and an oracle that would
report a huge height growth, the wait still returns immediately with zero
polls and zero sleep. -/
theorem C9_nonpositive_wait_returns_immediately_witness :
    waitForNewContent (fun _ => some 1000000) 0 0 = ⟨false, false, 0, 0⟩ :=
  C9_nonpositive_wait_returns_immediately (fun _ => some 1000000) 0 0
    (by norm_num)

/-- C6: scroll-height read failures are never fatal.  A failed pre-scroll
read makes `getScrollHeight` return 0 and the iteration continues with
`previousHeight = 0`; a failed read during the detection polling abandons
that wait immediately (reported as no content detected, not an error, with
no further polls or sleep); and the only error a scroll iteration can
raise comes from the keyboard-scroll fallback, never from a height read. -/
theorem C6_height_read_failures_nonfatal (reads : Nat → Option Int)
    (prev swt : Int) (j i : Nat) (ienv : ScrollIterEnv) :
    getScrollHeight none = 0
    ∧ (runScrollIter i { ienv with preHeightRead := none } swt).previousHeight = 0
    ∧ (j < numPolls swt →
        (∀ m, m < j → ∃ h, reads m = some h ∧ h ≤ prev) →
        reads j = none →
        waitForNewContent reads prev swt = ⟨false, true, j + 1, 500 * j⟩)
    ∧ ((runScrollIter i ienv swt).error = none ∨
        ∃ e, ienv.keyPress = Except.error e ∧
          (runScrollIter i ienv swt).error = some e) := by
  refine ⟨rfl, ?_, ?_, ?_⟩
  · cases hsb : scrollToBottom ienv.evalScroll ienv.keyPress <;>
      simp [runScrollIter, hsb, getScrollHeight]
  · intro hj hpre hread
    have hswt : 0 < swt := by
      by_contra hle
      push_neg at hle
      have : numPolls swt = 0 := by unfold numPolls; omega
      omega
    have hguard : ¬ swt ≤ 0 := not_le.mpr hswt
    have := waitPolls_read_failure reads prev j (numPolls swt) 0 hj
      (by intro m hm; simpa using hpre m hm) (by simpa using hread)
    simpa [waitForNewContent, hguard] using this
  · unfold runScrollIter scrollToBottom
    cases hev : ienv.evalScroll with
    | ok u => simp
    | error e =>
      cases hkp : ienv.keyPress with
      | ok u => simp
      | error e2 => exact Or.inr ⟨e2, rfl, by simp⟩

/-- Witness for C6 at concrete inputs: the poll at index 1 fails after a
successful equal-height poll, so the wait is abandoned after 2 polls and
500 ms with no content detected; a failed pre-scroll read yields
`previousHeight = 0`; and `getScrollHeight` maps a failed read to 0. -/
theorem C6_height_read_failures_nonfatal_witness :
    waitForNewContent (fun k => if k = 0 then some 4 else none) 4 3000 =
      ⟨false, true, 2, 500⟩
    ∧ getScrollHeight none = 0
    ∧ (runScrollIter 0
        { pageClosed := false, preHeightRead := none,
          evalScroll := Except.ok (), keyPress := Except.ok (),
          detectReads := fun _ => some 4 } 3000).previousHeight = 0 := by
  have base := C6_height_read_failures_nonfatal
    (fun k => if k = 0 then some 4 else none) 4 3000 1 0
    { pageClosed := false, preHeightRead := some 7,
      evalScroll := Except.ok (), keyPress := Except.ok (),
      detectReads := fun _ => some 4 }
  have base2 := C6_height_read_failures_nonfatal
    (fun k => if k = 0 then some 4 else none) 4 3000 1 0
    { pageClosed := false, preHeightRead := some 0,
      evalScroll := Except.ok (), keyPress := Except.ok (),
      detectReads := fun _ => some 4 }
  refine ⟨?_, base.1, ?_⟩
  · exact base.2.2.1 (by decide)
      (by intro m hm; exact ⟨4, by simp [show m = 0 by omega], le_refl 4⟩)
      (by norm_num)
  · exact base2.2.1

/-- C10: when the pre-scroll height read fails, `previousHeight` is 0, so
the first successful detection poll returning any strictly positive height
is declared new content and triggers the early exit with the extra 1000 ms
settle, whatever the page's real height history was. -/
theorem C10_failed_preread_causes_false_detection (ienv : ScrollIterEnv)
    (swt : Int) (i j : Nat) (h : Int)
    (hpre : ienv.preHeightRead = none)
    (hscroll : ienv.evalScroll = Except.ok ())
    (hj : j < numPolls swt)
    (hprev : ∀ m, m < j → ∃ hh, ienv.detectReads m = some hh ∧ hh ≤ 0)
    (hread : ienv.detectReads j = some h) (hpos : 0 < h) :
    runScrollIter i ienv swt =
      { index := i, previousHeight := 0,
        wait := some ⟨true, false, j + 1, 500 * j + ADDITIONAL_CONTENT_WAIT⟩,
        error := none } := by
  have hswt : 0 < swt := by
    by_contra hle
    push_neg at hle
    have : numPolls swt = 0 := by unfold numPolls; omega
    omega
  have hguard : ¬ swt ≤ 0 := not_le.mpr hswt
  have hwait := waitPolls_first_increase ienv.detectReads 0 j (numPolls swt) 0 h
    hj (by intro m hm; simpa using hprev m hm) (by simpa using hread) hpos
  unfold runScrollIter scrollToBottom
  rw [hpre, hscroll]
  simp [getScrollHeight, waitForNewContent, hguard, hwait]

/-- Witness for C10: the pre-scroll read fails, the very first poll
returns height 4 (the same height the page already had before the scroll),
and the iteration nevertheless reports new content with the extra 1000 ms
settle. -/
theorem C10_failed_preread_causes_false_detection_witness :
    runScrollIter 0
      { pageClosed := false, preHeightRead := none,
        evalScroll := Except.ok (), keyPress := Except.ok (),
        detectReads := fun _ => some 4 } 3000 =
      { index := 0, previousHeight := 0,
        wait := some ⟨true, false, 1, 1000⟩, error := none } := by
  have := C10_failed_preread_causes_false_detection
    { pageClosed := false, preHeightRead := none,
      evalScroll := Except.ok (), keyPress := Except.ok (),
      detectReads := fun _ => some 4 } 3000 0 0 4 rfl rfl
    (by decide) (by intro m hm; omega) rfl (by norm_num)
  simpa [ADDITIONAL_CONTENT_WAIT] using this

/-! ### Lemmas about the scroll loop -/

/-- When the page is never reported closed up to iteration `j`, iterations
before `j` raise no detachment error, and iteration `j` raises a
detachment error, the scroll loop runs exactly the iterations up to `j`
and breaks out of the whole loop there. -/
theorem performScrollingAux_detach (env : Nat → ScrollIterEnv) (swt : Int) :
    ∀ j n k, j < n →
      (∀ i, i ≤ j → (env (k + i)).pageClosed = false) →
      (∀ i, i < j → ∀ e2, (runScrollIter (k + i) (env (k + i)) swt).error = some e2 →
        isPageDetachmentError e2 = false) →
      ∀ e, (runScrollIter (k + j) (env (k + j)) swt).error = some e →
        isPageDetachmentError e = true →
      (performScrollingAux env swt n k).iters.length = j + 1 ∧
      (performScrollingAux env swt n k).stoppedByDetachment = true := by
  intro j
  induction j with
  | zero =>
    intro n k hn hcl _ e herr hdet
    match n, hn with
    | m + 1, _ =>
      have hc : (env k).pageClosed = false := by
        have := hcl 0 (Nat.le_refl 0); rwa [Nat.add_zero] at this
      rw [Nat.add_zero] at herr
      simp [performScrollingAux, hc, herr, hdet]
  | succ jj ih =>
    intro n k hn hcl hpre e herr hdet
    match n, hn with
    | m + 1, hn =>
      have hc : (env k).pageClosed = false := by
        have := hcl 0 (Nat.zero_le _); rwa [Nat.add_zero] at this
      have hrest := ih m (k + 1) (by omega)
        (by intro i hi
            have := hcl (i + 1) (by omega)
            rwa [show k + (i + 1) = k + 1 + i by omega] at this)
        (by intro i hi e2 he2
            rw [show k + 1 + i = k + (i + 1) by omega] at he2
            exact hpre (i + 1) (by omega) e2 he2)
        e (by rwa [show k + 1 + jj = k + (jj + 1) by omega]) hdet
      cases he : (runScrollIter k (env k) swt).error with
      | none =>
        simp [performScrollingAux, hc, he, hrest.1, hrest.2]
      | some e0 =>
        have hnd : isPageDetachmentError e0 = false := by
          have := hpre 0 (Nat.succ_pos jj) e0
          rw [Nat.add_zero] at this
          exact this he
        simp [performScrollingAux, hc, he, hnd, hrest.1, hrest.2]

/-- When the page is never reported closed and no iteration raises a
detachment error, the scroll loop runs all its iterations and does not
break early on detachment. -/
theorem performScrollingAux_no_detach (env : Nat → ScrollIterEnv) (swt : Int) :
    ∀ n k, (∀ i, i < n → (env (k + i)).pageClosed = false ∧
        ∀ e, (runScrollIter (k + i) (env (k + i)) swt).error = some e →
          isPageDetachmentError e = false) →
      (performScrollingAux env swt n k).iters.length = n ∧
      (performScrollingAux env swt n k).stoppedByDetachment = false := by
  intro n
  induction n with
  | zero => intro k _; simp [performScrollingAux]
  | succ m ih =>
    intro k hall
    have hc : (env k).pageClosed = false := by
      have := (hall 0 (Nat.succ_pos m)).1; rwa [Nat.add_zero] at this
    have hrest := ih (k + 1) (by
      intro i hi
      have := hall (i + 1) (by omega)
      rwa [show k + (i + 1) = k + 1 + i by omega] at this)
    cases he : (runScrollIter k (env k) swt).error with
    | none => simp [performScrollingAux, hc, he, hrest.1, hrest.2]
    | some e0 =>
      have hnd : isPageDetachmentError e0 = false := by
        have := (hall 0 (Nat.succ_pos m)).2 e0
        rw [Nat.add_zero] at this
        exact this he
      simp [performScrollingAux, hc, he, hnd, hrest.1, hrest.2]

/-! ### Claim theorem: detachment handling in the scroll loop -/

/-- C2: if some scroll iteration `j` raises an error whose message matches
a detachment keyword (earlier iterations raising none), the whole scroll
loop stops right after iteration `j` — exactly `j + 1` iteration bodies
run; any other errors are absorbed and the loop runs all `scrollCount`
iterations; and in every case the fetch is not failed by scrolling: with
the earlier stages successful the request still reaches the network-idle
wait and the extraction stage, whatever the scroll environment did, and
its result is decided by extraction alone. -/
theorem C2_detachment_stops_scroll_loop (env : Nat → ScrollIterEnv)
    (sc swt : Int) :
    (∀ j e, j < sc.toNat →
      (∀ i, i ≤ j → (env i).pageClosed = false) →
      (∀ i, i < j → ∀ e2, (runScrollIter i (env i) swt).error = some e2 →
        isPageDetachmentError e2 = false) →
      (runScrollIter j (env j) swt).error = some e →
      isPageDetachmentError e = true →
      (performScrolling env sc swt).iters.length = j + 1 ∧
      (performScrolling env sc swt).stoppedByDetachment = true)
    ∧ ((∀ i, i < sc.toNat → (env i).pageClosed = false ∧
        ∀ e, (runScrollIter i (env i) swt).error = some e →
          isPageDetachmentError e = false) →
      (performScrolling env sc swt).iters.length = sc.toNat ∧
      (performScrolling env sc swt).stoppedByDetachment = false)
    ∧ (∀ (url : String) (iwt : Int) (fenv : FetchEnv),
        fenv.scrollEnv = env →
        fenv.connect = Except.ok () → fenv.newPage = Except.ok () →
        fenv.goto = Except.ok () →
        Stage.networkIdleWait ∈ (fetchWebContent url iwt sc swt fenv).trace ∧
        Stage.extraction ∈ (fetchWebContent url iwt sc swt fenv).trace ∧
        (fetchWebContent url iwt sc swt fenv).result =
          extractPageContent fenv.closedAtExtraction fenv.evalOuterHTML
            fenv.pageContent) := by
  refine ⟨?_, ?_, ?_⟩
  · intro j e hj hcl hpre herr hdet
    exact performScrollingAux_detach env swt j sc.toNat 0 hj
      (by intro i hi; simpa using hcl i hi)
      (by intro i hi e2 he2; exact hpre i hi e2 (by simpa using he2))
      e (by simpa using herr) hdet
  · intro hall
    exact performScrollingAux_no_detach env swt sc.toNat 0
      (by intro i hi; simpa using hall i hi)
  · intro url iwt fenv _ hconn hnp hgoto
    refine ⟨?_, ?_, ?_⟩ <;>
      simp [fetchWebContent, hconn, hnp, hgoto, navigateToUrl,
        waitForNetworkAndRendering, waitForInitialLoad]

/-- Helper environment for the C2 witness: iteration 1 fails both scroll
commands, the keyboard fallback raising an error whose message contains
the detachment keywords; every other iteration succeeds. -/
def c2ScrollEnv : Nat → ScrollIterEnv := fun i =>
  if i = 1 then
    { pageClosed := false, preHeightRead := some 4
      evalScroll := Except.error "evaluate failed"
      keyPress := Except.error "Target closed"
      detectReads := fun _ => some 4 }
  else
    { pageClosed := false, preHeightRead := some 4
      evalScroll := Except.ok (), keyPress := Except.ok ()
      detectReads := fun _ => some 4 }

/-- Helper fetch environment for the C2 witness, wrapping `c2ScrollEnv`
into an otherwise successful request. -/
def c2FetchEnv : FetchEnv :=
  { connect := Except.ok (), newPage := Except.ok (), goto := Except.ok ()
    scrollEnv := c2ScrollEnv, netIdle := Except.ok ()
    closedAtExtraction := false
    evalOuterHTML := Except.ok "<html></html>"
    pageContent := Except.ok "<html></html>"
    closeResult := Except.ok () }

/-- Witness for C2: with 5 requested scrolls and a detachment error raised
in iteration 1, only iterations 0 and 1 run, the loop stops by detachment,
and the surrounding fetch still reaches the extraction stage. -/
theorem C2_detachment_stops_scroll_loop_witness :
    (performScrolling c2ScrollEnv 5 3000).iters.length = 2
    ∧ (performScrolling c2ScrollEnv 5 3000).stoppedByDetachment = true
    ∧ Stage.extraction ∈
        (fetchWebContent "https://example.com" 0 5 3000 c2FetchEnv).trace := by
  have base := C2_detachment_stops_scroll_loop c2ScrollEnv 5 3000
  have h1 := base.1 1 "Target closed" (by decide)
    (by intro i hi
        have hi2 : i = 0 ∨ i = 1 := by omega
        cases hi2 with
        | inl h => subst h; rfl
        | inr h => subst h; rfl)
    (by intro i hi e2 he2
        have hi0 : i = 0 := by omega
        subst hi0
        have hnone : (runScrollIter 0 (c2ScrollEnv 0) 3000).error = none := by
          decide
        rw [hnone] at he2
        exact absurd he2 (by simp))
    (by decide) (by decide)
  exact ⟨h1.1, h1.2,
    (base.2.2 "https://example.com" 0 c2FetchEnv rfl rfl rfl rfl).2.1⟩

/-! ### Helper lemmas about closePage -/

/-- Teardown on a null page is a no-op whatever the close call would do. -/
theorem closePage_null (cr : Except String Unit) : closePage none cr = 0 := by
  cases cr <;> rfl

/-- Teardown on an open page performs exactly one close attempt, whether
the close succeeds or fails. -/
theorem closePage_open (cr : Except String Unit) : closePage (some ()) cr = 1 := by
  cases cr <;> rfl

/-! ### Claim theorems: extraction, lifecycle, stage sequencing, validation -/

/-- C3: content extraction is a two-strategy chain.  An already-closed
page fails immediately with the extraction-class message; otherwise a
successful outerHTML evaluate is returned as is; on its failure the single
fallback retrieval is tried and its success is returned with no error;
when both fail the request fails with an extraction-class error whose
message carries exactly the primary failure's detail, not the
fallback's. -/
theorem C3_extraction_two_strategy_chain (closed : Bool)
    (evalHTML content : Except String String) :
    (closed = true →
      extractPageContent closed evalHTML content =
        Except.error "Page was closed before content extraction")
    ∧ (∀ c, closed = false → evalHTML = Except.ok c →
        extractPageContent closed evalHTML content = Except.ok c)
    ∧ (∀ e c, closed = false → evalHTML = Except.error e →
        content = Except.ok c →
        extractPageContent closed evalHTML content = Except.ok c)
    ∧ (∀ e e2, closed = false → evalHTML = Except.error e →
        content = Except.error e2 →
        extractPageContent closed evalHTML content =
          Except.error ("Failed to extract page content: " ++ e)) := by
  refine ⟨?_, ?_, ?_, ?_⟩ <;> intros <;> simp_all [extractPageContent]

/-- Witness for C3 at concrete inputs: each link of the chain, including
the both-fail case whose message keeps the primary detail and not the
fallback's. -/
theorem C3_extraction_two_strategy_chain_witness :
    extractPageContent true (Except.ok "a") (Except.ok "b") =
      Except.error "Page was closed before content extraction"
    ∧ extractPageContent false (Except.ok "a") (Except.error "x") = Except.ok "a"
    ∧ extractPageContent false (Except.error "primary detail") (Except.ok "b") =
        Except.ok "b"
    ∧ extractPageContent false (Except.error "primary detail")
        (Except.error "fallback detail") =
        Except.error "Failed to extract page content: primary detail" := by
  refine ⟨?_, ?_, ?_, ?_⟩
  · exact (C3_extraction_two_strategy_chain true (Except.ok "a")
      (Except.ok "b")).1 rfl
  · exact (C3_extraction_two_strategy_chain false (Except.ok "a")
      (Except.error "x")).2.1 "a" rfl rfl
  · exact (C3_extraction_two_strategy_chain false (Except.error "primary detail")
      (Except.ok "b")).2.2.1 "primary detail" "b" rfl rfl rfl
  · exact (C3_extraction_two_strategy_chain false (Except.error "primary detail")
      (Except.error "fallback detail")).2.2.2 "primary detail" "fallback detail"
      rfl rfl rfl

/-- C4: every run of the protocol opens at most one page; whenever a page
was opened it is closed exactly once, on the success path and on every
error path alike; when the connection or page-creation stages failed
before a page existed, teardown performs no close; and a failing close
never changes the request's result. -/
theorem C4_page_lifecycle (url : String) (iwt sc swt : Int) (env : FetchEnv) :
    (fetchWebContent url iwt sc swt env).pagesOpened ≤ 1
    ∧ ((fetchWebContent url iwt sc swt env).pagesOpened = 1 →
        (fetchWebContent url iwt sc swt env).closeCalls = 1)
    ∧ ((fetchWebContent url iwt sc swt env).pagesOpened = 0 →
        (fetchWebContent url iwt sc swt env).closeCalls = 0)
    ∧ (∀ cr, (fetchWebContent url iwt sc swt { env with closeResult := cr }).result
        = (fetchWebContent url iwt sc swt env).result) := by
  cases hc : env.connect with
  | error e => simp [fetchWebContent, hc, closePage_null]
  | ok u =>
    cases u
    cases hn : env.newPage with
    | error e => simp [fetchWebContent, hc, hn, closePage_null]
    | ok u2 =>
      cases u2
      cases hg : env.goto with
      | error e =>
        simp [fetchWebContent, hc, hn, hg, navigateToUrl, closePage_open]
      | ok u3 =>
        cases u3
        simp [fetchWebContent, hc, hn, hg, navigateToUrl, closePage_open]

/-- Witness for C4: on a fully successful request one close call runs, and
replacing the close outcome by a failure leaves the request result
untouched. -/
theorem C4_page_lifecycle_witness :
    (fetchWebContent "https://example.com" 0 1 1000 c2FetchEnv).closeCalls = 1
    ∧ (fetchWebContent "https://example.com" 0 1 1000
        { c2FetchEnv with closeResult := Except.error "close failed" }).result
      = (fetchWebContent "https://example.com" 0 1 1000 c2FetchEnv).result := by
  have base := C4_page_lifecycle "https://example.com" 0 1 1000 c2FetchEnv
  exact ⟨base.2.1 rfl, base.2.2.2 (Except.error "close failed")⟩

/-- C5: with `scrollCount = 0` the scroll loop performs zero iterations
and no post-scroll settle sleep appears in the trace, while the
network-idle wait and the fixed final render wait still execute; and in
general the settle sleep runs exactly when `scrollCount > 0` and
`scrollWaitTime > 0`. -/
theorem C5_zero_scrolls_skip_settle (url : String) (iwt swt : Int)
    (env : FetchEnv) (hconn : env.connect = Except.ok ())
    (hnp : env.newPage = Except.ok ()) (hgoto : env.goto = Except.ok ()) :
    ((fetchWebContent url iwt 0 swt env).scroll =
        some { iters := [], stoppedByClosed := false, stoppedByDetachment := false }
      ∧ (∀ ms, Stage.settleSleep ms ∉ (fetchWebContent url iwt 0 swt env).trace)
      ∧ Stage.networkIdleWait ∈ (fetchWebContent url iwt 0 swt env).trace
      ∧ Stage.finalRenderSleep FINAL_RENDER_WAIT ∈
          (fetchWebContent url iwt 0 swt env).trace)
    ∧ (∀ sc s : Int,
        (Stage.settleSleep s ∈ waitForNetworkAndRendering sc s env.netIdle) ↔
          (0 < sc ∧ 0 < s)) := by
  constructor
  · refine ⟨?_, ?_, ?_, ?_⟩
    · simp [fetchWebContent, hconn, hnp, hgoto, navigateToUrl,
        performScrolling, performScrollingAux]
    · intro ms
      simp only [fetchWebContent, hconn, hnp, hgoto, navigateToUrl,
        waitForInitialLoad, waitForNetworkAndRendering]
      split <;> simp
    · simp only [fetchWebContent, hconn, hnp, hgoto, navigateToUrl,
        waitForInitialLoad, waitForNetworkAndRendering]
      split <;> simp
    · simp only [fetchWebContent, hconn, hnp, hgoto, navigateToUrl,
        waitForInitialLoad, waitForNetworkAndRendering]
      split <;> simp
  · intro sc s
    by_cases hcond : 0 < sc ∧ 0 < s <;>
      simp [waitForNetworkAndRendering, hcond]

/-- Witness for C5: a zero-scroll request reports an empty scroll loop and
still carries the network-idle stage, and with 2 scrolls and a positive
wait the settle sleep does run. -/
theorem C5_zero_scrolls_skip_settle_witness :
    (fetchWebContent "https://example.com" 3000 0 3000 c2FetchEnv).scroll =
      some { iters := [], stoppedByClosed := false, stoppedByDetachment := false }
    ∧ Stage.networkIdleWait ∈
        (fetchWebContent "https://example.com" 3000 0 3000 c2FetchEnv).trace
    ∧ Stage.settleSleep 3000 ∈ waitForNetworkAndRendering 2 3000 c2FetchEnv.netIdle := by
  have base := C5_zero_scrolls_skip_settle "https://example.com" 3000 3000
    c2FetchEnv rfl rfl rfl
  exact ⟨base.1.1, base.1.2.2.1, (base.2 2 3000).mpr (by norm_num)⟩

/-- C7: a navigation failure is fatal to the request, which fails with an
error whose message embeds the target URL (no scrolling or extraction
happens); on navigation success a fixed `PAGE_STABILIZATION = 1000` ms
pause follows the navigation before any further stage. -/
theorem C7_navigation_failure_fatal (url e : String) (iwt sc swt : Int)
    (env : FetchEnv) (hconn : env.connect = Except.ok ())
    (hnp : env.newPage = Except.ok ()) :
    (env.goto = Except.error e →
      (fetchWebContent url iwt sc swt env).result =
        Except.error ("Failed to load URL " ++ url ++ ": " ++ e)
      ∧ (∃ pre post,
          "Failed to load URL " ++ url ++ ": " ++ e = pre ++ url ++ post)
      ∧ (fetchWebContent url iwt sc swt env).scroll = none
      ∧ Stage.extraction ∉ (fetchWebContent url iwt sc swt env).trace)
    ∧ (env.goto = Except.ok () →
      navigateToUrl url env.goto =
        ([Stage.navigate, Stage.stabilizeSleep PAGE_STABILIZATION],
          Except.ok ())
      ∧ PAGE_STABILIZATION = 1000) := by
  constructor
  · intro hgoto
    refine ⟨?_, ⟨"Failed to load URL ", ": " ++ e, ?_⟩, ?_, ?_⟩
    · simp [fetchWebContent, hconn, hnp, hgoto, navigateToUrl]
    · simp [String.append_assoc]
    · simp [fetchWebContent, hconn, hnp, hgoto, navigateToUrl]
    · simp [fetchWebContent, hconn, hnp, hgoto, navigateToUrl]
  · intro hgoto
    exact ⟨by simp [navigateToUrl, hgoto], rfl⟩

/-- Helper fetch environment for the C7 witness: navigation fails with a
timeout-style message. -/
def c7FetchEnv : FetchEnv :=
  { c2FetchEnv with goto := Except.error "net::ERR_TIMED_OUT" }

/-- Witness for C7: the concrete failing navigation yields the fatal
navigation-class error, whose message includes the target URL. -/
theorem C7_navigation_failure_fatal_witness :
    (fetchWebContent "https://example.com" 0 0 0 c7FetchEnv).result =
      Except.error "Failed to load URL https://example.com: net::ERR_TIMED_OUT"
    ∧ strIncludes "Failed to load URL https://example.com: net::ERR_TIMED_OUT"
        "https://example.com" = true := by
  have base := (C7_navigation_failure_fatal "https://example.com"
    "net::ERR_TIMED_OUT" 0 0 0 c7FetchEnv rfl rfl).1 rfl
  exact ⟨base.1, by decide⟩

/-- C8: a missing or empty `url` is rejected with the invalid-parameters
error before the protocol starts: the trace is empty, so no connection
attempt, page creation or navigation is performed. -/
theorem C8_falsy_url_rejected (args : FetchWebContentArgs) (env : FetchEnv)
    (h : urlIsFalsy args.url = true) :
    (handleWebContentRequest args env).invalidParams = true
    ∧ (handleWebContentRequest args env).trace = []
    ∧ (handleWebContentRequest args env).result = Except.error "URL is required"
    ∧ Stage.ensureConnection ∉ (handleWebContentRequest args env).trace
    ∧ Stage.createPage ∉ (handleWebContentRequest args env).trace
    ∧ Stage.navigate ∉ (handleWebContentRequest args env).trace := by
  simp [handleWebContentRequest, h]

/-- Witness for C8: both a missing `url` and the empty string are
rejected before the protocol runs. -/
theorem C8_falsy_url_rejected_witness :
    (handleWebContentRequest ⟨none, none, none, none⟩ c2FetchEnv).invalidParams
      = true
    ∧ (handleWebContentRequest ⟨some "", some 3000, some 0, some 3000⟩
        c2FetchEnv).trace = [] := by
  exact ⟨(C8_falsy_url_rejected ⟨none, none, none, none⟩ c2FetchEnv rfl).1,
    (C8_falsy_url_rejected ⟨some "", some 3000, some 0, some 3000⟩
      c2FetchEnv rfl).2.1⟩
